import Mathlib

/-!
Shallow embedding of the device-state synchronization engine of the
qsource3-mqtt-gui repository (files `qsource3_mqtt_gui/qsource3_mqtt_client_logic.py`
and `utils.py`), together with theorems settling the frozen claims about it.

Python values that can appear in this engine (everything the JSON layer can
decode, plus the settings dictionary itself) are modelled by `PyVal`.
Floating-point numbers are modelled by rationals; no claim depends on
rounding, NaN or infinities.  Python exceptions are modelled by the
`Except PyErr` monad; an `Except.error` result of a handler means the
corresponding Python exception propagates out of the function (all mutation
points in the embedded code occur after the last possible raise point of
their function, so the caller-keeps-old-state reading of `Except.error`
matches the Python semantics; this was checked against the source
function by function).  Qt signal emissions are recorded as a list of
`Signal` events; MQTT publishes as a list of (topic, payload) pairs.
-/

/-- A Python value as it occurs in this program: `None`, `bool`, `int`,
`float` (modelled as a rational), `str`, `list`, or a `dict` with string
keys (JSON objects and the settings dictionary).  Insertion order of dict
entries is part of the value, as in Python 3.7+. -/
inductive PyVal : Type where
  | none : PyVal
  | bool : Bool → PyVal
  | int : Int → PyVal
  | float : ℚ → PyVal
  | str : String → PyVal
  | list : List PyVal → PyVal
  | dict : List (String × PyVal) → PyVal

/-- The Python exception classes that the embedded code can raise:
`ValueError` (validators in `utils.py`), `TypeError`
(`verify_calib_points`, subscripting a non-dict), `KeyError`
(missing dict key). -/
inductive PyErr : Type where
  | valueError : PyErr
  | typeError : PyErr
  | keyError : PyErr
deriving DecidableEq, Repr

/-- Numeric view of a Python value: `isinstance(v, (int, float))` together
with its numeric content.  Python `bool` is a subclass of `int`
(`True == 1`, `False == 0`), so booleans are numbers here. -/
def pyNum? : PyVal → Option ℚ
  | .bool b => some (if b then 1 else 0)
  | .int n => some (n : ℚ)
  | .float q => some q
  | _ => Option.none

/-- The function `isinstance(v, (int, float))` in Python (booleans included, since
`bool` subclasses `int`). -/
def isNumberInst (v : PyVal) : Bool :=
  (pyNum? v).isSome

/-- The function `isinstance(v, bool)` in Python. -/
def isBoolInst : PyVal → Bool
  | .bool _ => true
  | _ => false

/-- Python equality test `v == k` against an integer literal, as used by
`value in [0, 1, 2]` in `check_mass_range`: numeric values compare by
numeric value (so `True == 1`, `1.0 == 1`), everything else is unequal
to an integer. -/
def pyEqInt (v : PyVal) (k : Int) : Bool :=
  match pyNum? v with
  | some q => decide (q = (k : ℚ))
  | Option.none => false

/-- Association lookup in a Python dict, first binding wins (post-JSON
dicts have unique keys). -/
def dictGet? : List (String × PyVal) → String → Option PyVal
  | [], _ => Option.none
  | (k', v) :: rest, k => if k' = k then some v else dictGet? rest k

/-- Python dict assignment `d[k] = v`: updates the entry in place if the
key is present (keeping its position), otherwise appends at the end. -/
def dictSet : List (String × PyVal) → String → PyVal → List (String × PyVal)
  | [], k, v => [(k, v)]
  | (k', v') :: rest, k, v =>
      if k' = k then (k', v) :: rest else (k', v') :: dictSet rest k v

/-- Python subscript `payload[k]`: `KeyError` if the key is absent from a
dict, `TypeError` if the value is not subscriptable by a string
(list, int, str, bool, float, None). -/
def pyGet (v : PyVal) (k : String) : Except PyErr PyVal :=
  match v with
  | .dict kvs =>
      match dictGet? kvs k with
      | some x => .ok x
      | Option.none => .error .keyError
  | _ => .error .typeError

/-- Naive substring search on character lists. -/
def listContainsSub : List Char → List Char → Bool
  | [], needle => needle.isEmpty
  | h :: t, needle => List.isPrefixOf needle (h :: t) || listContainsSub t needle

/-- Substring test, as in Python `pat in topic` for strings. -/
def strContains (s pat : String) : Bool :=
  listContainsSub s.data pat.data

/-- Suffix test, as in Python `topic.endswith(suffix)`. -/
def strEndsWith (s suffix : String) : Bool :=
  List.isPrefixOf suffix.data.reverse s.data.reverse

/-- Python `k in payload`: key test for dicts, substring test for strings,
membership (against string elements) for lists, `TypeError` otherwise. -/
def pyContains (v : PyVal) (k : String) : Except PyErr Bool :=
  match v with
  | .dict kvs => .ok (dictGet? kvs k).isSome
  | .str s => .ok (strContains s k)
  | .list xs => .ok (xs.any fun x =>
      match x with
      | .str t => t = k
      | _ => false)
  | _ => .error .typeError

/-! ## Validators (`utils.py`) -/

/-- Element check of `verify_calib_points`: the pair must be a Python list
of length exactly 2 whose two components are numbers. -/
def calibPairOk : PyVal → Bool
  | .list [a, b] => isNumberInst a && isNumberInst b
  | _ => false

/-- The function `verify_calib_points` from `utils.py`: raises `TypeError` unless the
value is a list of number pairs. -/
def verify_calib_points (v : PyVal) : Except PyErr Unit :=
  match v with
  | .list pairs => if pairs.all calibPairOk then .ok () else .error .typeError
  | _ => .error .typeError

/-- The function `check_mass_range` from `utils.py`: `value in [0, 1, 2]` with Python
equality, else `ValueError`. -/
def check_mass_range (v : PyVal) : Except PyErr Unit :=
  if pyEqInt v 0 || pyEqInt v 1 || pyEqInt v 2 then .ok () else .error .valueError

/-- The function `check_mz` from `utils.py`: a number that is not negative, else
`ValueError`. -/
def check_mz (v : PyVal) : Except PyErr Unit :=
  match pyNum? v with
  | some q => if q < 0 then .error .valueError else .ok ()
  | Option.none => .error .valueError

/-- The dc-offset validator from `utils.py` (named `check_dc_offset`
there and imported as `check_dc_offst` by the client logic): any number,
else `ValueError`. -/
def check_dc_offst (v : PyVal) : Except PyErr Unit :=
  if isNumberInst v then .ok () else .error .valueError

/-- The function `check_dc_on` from `utils.py`: a boolean, else `ValueError`. -/
def check_dc_on (v : PyVal) : Except PyErr Unit :=
  if isBoolInst v then .ok () else .error .valueError

/-- The function `check_rod_polarity_positive` from `utils.py`: a boolean, else
`ValueError`. -/
def check_rod_polarity_positive (v : PyVal) : Except PyErr Unit :=
  if isBoolInst v then .ok () else .error .valueError

/-- The function `check_calib_points_mz` from `utils.py`: runs `verify_calib_points`
and re-raises its `TypeError` as a `ValueError` (only `TypeError` is
caught there). -/
def check_calib_points_mz (v : PyVal) : Except PyErr Unit :=
  match verify_calib_points v with
  | .error .typeError => .error .valueError
  | r => r

/-- The function `check_calib_points_resolution` from `utils.py`: same wrapping of
`verify_calib_points` as `check_calib_points_mz`. -/
def check_calib_points_resolution (v : PyVal) : Except PyErr Unit :=
  match verify_calib_points v with
  | .error .typeError => .error .valueError
  | r => r

example : check_mz (.int 0) = .ok () := rfl
example : check_mz (.int 2000) = .ok () := rfl
example : check_mz (.int (-1)) = .error .valueError := rfl
example : check_mz (.bool true) = .ok () := rfl
example : check_mass_range (.bool true) = .ok () := rfl
example : check_mass_range (.int 3) = .error .valueError := rfl
example : verify_calib_points (.list [.list [.int 1, .int 2], .list [.str ("a"), .int 3]])
    = .error .typeError := rfl
example : verify_calib_points (.list [.list [.int 1, .int 2], .list [.int 3, .int 4]])
    = .ok () := rfl
example : check_calib_points_mz (.list [.list [.int 1, .int 2], .list [.str ("a"), .int 3]])
    = .error .valueError := rfl

/-! ## Engine state (`QSource3_MQTTClientLogic`) -/

/-- The MQTT addressing configuration (`topic_base`, `device_name` from the
config file). -/
structure Config : Type where
  topic_base : String
  device_name : String

/-- The mutable state of `QSource3_MQTTClientLogic` relevant to the claims:
whether `self.client.is_connected()` currently holds, and the
`self.settings` dictionary (the settings mirror). -/
structure LogicState : Type where
  connected : Bool
  settings : List (String × PyVal)

/-- The function `self.settings` as initialized in `__init__`. -/
def initial_settings : List (String × PyVal) :=
  [("mass_range", .int 0), ("mz", .int 0), ("dc_offst", .int 0),
   ("dc_on", .bool true), ("rod_polarity_positive", .bool true),
   ("calib_points_mz", .list [.list [.int 0, .int 0]]),
   ("calib_points_resolution", .list [.list [.int 0, .int 0]])]

/-- One pyqtSignal emission of the logic class, carrying its payload. -/
inductive Signal : Type where
  | deviceStatusChanged : String → Signal
  | mqttStatusChanged : String → Signal
  | maxMzChanged : PyVal → Signal
  | freqChanged : PyVal → Signal
  | rfAmpChanged : PyVal → Signal
  | dc1Changed : PyVal → Signal
  | dc2Changed : PyVal → Signal
  | currentChanged : PyVal → Signal
  | massRangeChanged : PyVal → Signal
  | mzChanged : PyVal → Signal
  | dcOffstChanged : PyVal → Signal
  | dcOnChanged : PyVal → Signal
  | rodPolarityPositiveChanged : PyVal → Signal
  | calibPointsMzChanged : PyVal → Signal
  | calibPointsResolutionChanged : PyVal → Signal

/-- The observable outcome of one handler run: the state afterwards, the
signals emitted, and the MQTT messages published (topic, payload). -/
structure Step : Type where
  state : LogicState
  signals : List Signal
  published : List (String × PyVal)

/-- The outbound command/request topic `topic_base/cmnd/device_name/code`. -/
def cmnd_topic (cfg : Config) (code : String) : String :=
  cfg.topic_base ++ "/cmnd/" ++ cfg.device_name ++ "/" ++ code

/-! ## Inbound handlers -/

/-- One `if key in payload: emit(payload[key])` block of
`handle_device_state` (telemetry and notification-only settings keys). -/
def emitIfPresent (payload : PyVal) (key : String) (mk : PyVal → Signal) :
    Except PyErr (List Signal) := do
  let c ← pyContains payload key
  if c then
    let v ← pyGet payload key
    pure [mk v]
  else
    pure []

/-- The function `handle_device_state`: the bulk state report.  Only the `range` key is
validated and stored into the mirror (inside `try/except ValueError`);
every other key present in the report is forwarded as a signal only. -/
def handle_device_state (st : LogicState) (payload : PyVal) : Except PyErr Step := do
  let cr ← pyContains payload ("range")
  let (settings, s0) ←
    if cr then do
      let v ← pyGet payload ("range")
      match check_mass_range v with
      | .ok _ => pure (dictSet st.settings ("mass_range") v, [Signal.massRangeChanged v])
      | .error .valueError => pure (st.settings, [])
      | .error e => throw e
    else
      pure (st.settings, [])
  let s1 ← emitIfPresent payload ("frequency") Signal.freqChanged
  let s2 ← emitIfPresent payload ("rf_amp") Signal.rfAmpChanged
  let s3 ← emitIfPresent payload ("dc1") Signal.dc1Changed
  let s4 ← emitIfPresent payload ("dc2") Signal.dc2Changed
  let s5 ← emitIfPresent payload ("current") Signal.currentChanged
  let s6 ← emitIfPresent payload ("mz") Signal.mzChanged
  let s7 ← emitIfPresent payload ("dc_offst") Signal.dcOffstChanged
  let s8 ← emitIfPresent payload ("is_dc_on") Signal.dcOnChanged
  let s9 ← emitIfPresent payload ("is_rod_polarity_positive") Signal.rodPolarityPositiveChanged
  let s10 ← emitIfPresent payload ("max_mz") Signal.maxMzChanged
  pure ⟨⟨st.connected, settings⟩,
        s0 ++ s1 ++ s2 ++ s3 ++ s4 ++ s5 ++ s6 ++ s7 ++ s8 ++ s9 ++ s10, []⟩

/-- The function `handle_range`: `try: check_mass_range(payload["value"]); store; emit
except ValueError: log`.  A `KeyError`/`TypeError` from the subscript is
not caught and propagates. -/
def handle_range (st : LogicState) (payload : PyVal) : Except PyErr Step := do
  let v ← pyGet payload ("value")
  match check_mass_range v with
  | .ok _ => pure ⟨⟨st.connected, dictSet st.settings ("mass_range") v⟩,
                   [Signal.massRangeChanged v], []⟩
  | .error .valueError => pure ⟨st, [], []⟩
  | .error e => throw e

/-- The function `handle_mz`: same shape as `handle_range` with `check_mz` and the
`mz` mirror key. -/
def handle_mz (st : LogicState) (payload : PyVal) : Except PyErr Step := do
  let v ← pyGet payload ("value")
  match check_mz v with
  | .ok _ => pure ⟨⟨st.connected, dictSet st.settings ("mz") v⟩,
                   [Signal.mzChanged v], []⟩
  | .error .valueError => pure ⟨st, [], []⟩
  | .error e => throw e

/-- The function `handle_dc_offst`: same shape with `check_dc_offst` and `dc_offst`. -/
def handle_dc_offst (st : LogicState) (payload : PyVal) : Except PyErr Step := do
  let v ← pyGet payload ("value")
  match check_dc_offst v with
  | .ok _ => pure ⟨⟨st.connected, dictSet st.settings ("dc_offst") v⟩,
                   [Signal.dcOffstChanged v], []⟩
  | .error .valueError => pure ⟨st, [], []⟩
  | .error e => throw e

/-- The function `handle_dc_on`: same shape with `check_dc_on` and `dc_on`. -/
def handle_dc_on (st : LogicState) (payload : PyVal) : Except PyErr Step := do
  let v ← pyGet payload ("value")
  match check_dc_on v with
  | .ok _ => pure ⟨⟨st.connected, dictSet st.settings ("dc_on") v⟩,
                   [Signal.dcOnChanged v], []⟩
  | .error .valueError => pure ⟨st, [], []⟩
  | .error e => throw e

/-- The function `handle_rod_polarity_positive`: same shape with
`check_rod_polarity_positive` and `rod_polarity_positive`. -/
def handle_rod_polarity_positive (st : LogicState) (payload : PyVal) :
    Except PyErr Step := do
  let v ← pyGet payload ("value")
  match check_rod_polarity_positive v with
  | .ok _ => pure ⟨⟨st.connected, dictSet st.settings ("rod_polarity_positive") v⟩,
                   [Signal.rodPolarityPositiveChanged v], []⟩
  | .error .valueError => pure ⟨st, [], []⟩
  | .error e => throw e

/-- The function `handle_calib_points_mz`: the handler calls `verify_calib_points`
directly (which raises `TypeError`), but its `except` clause only catches
`ValueError`, so a shape failure propagates. -/
def handle_calib_points_mz (st : LogicState) (payload : PyVal) : Except PyErr Step := do
  let v ← pyGet payload ("value")
  match verify_calib_points v with
  | .ok _ => pure ⟨⟨st.connected, dictSet st.settings ("calib_points_mz") v⟩,
                   [Signal.calibPointsMzChanged v], []⟩
  | .error .valueError => pure ⟨st, [], []⟩
  | .error e => throw e

/-- The function `handle_calib_points_resolution`: same shape (and same
`TypeError`-escapes-the-`except ValueError`-clause behavior) as
`handle_calib_points_mz`. -/
def handle_calib_points_resolution (st : LogicState) (payload : PyVal) :
    Except PyErr Step := do
  let v ← pyGet payload ("value")
  match verify_calib_points v with
  | .ok _ => pure ⟨⟨st.connected, dictSet st.settings ("calib_points_resolution") v⟩,
                   [Signal.calibPointsResolutionChanged v], []⟩
  | .error .valueError => pure ⟨st, [], []⟩
  | .error e => throw e

/-- The function `handle_max_mz`: telemetry forward only; no `try` block, so a missing
`value` key raises `KeyError`. -/
def handle_max_mz (st : LogicState) (payload : PyVal) : Except PyErr Step := do
  let v ← pyGet payload ("value")
  pure ⟨st, [Signal.maxMzChanged v], []⟩

/-- The function `handle_device_error`: log and signal the IO-error status. -/
def handle_device_error (st : LogicState) : Except PyErr Step :=
  .ok ⟨st, [Signal.deviceStatusChanged ("IO error")], []⟩

/-! ## Outbound publishes and requests -/

/-- Result of a call to a `@client_connected`-decorated publish method:
either the connectivity gate fired (warning logged, nothing done), or the
body ran to completion. -/
inductive PubOutcome : Type where
  | notConnected : PubOutcome
  | published : PubOutcome
deriving DecidableEq, Repr

/-- The function `publish_mass_range` (gated by `@client_connected`): validate, store
into the mirror, publish `{"value": v}` on the `range` command topic.
The validator raises `ValueError` to the caller on an invalid value, in
which case neither the store nor the publish happens. -/
def publish_mass_range (cfg : Config) (st : LogicState) (v : PyVal) :
    Except PyErr (PubOutcome × LogicState × List (String × PyVal)) :=
  if st.connected then do
    let _ ← check_mass_range v
    pure (.published, ⟨st.connected, dictSet st.settings ("mass_range") v⟩,
          [(cmnd_topic cfg ("range"), .dict [("value", v)])])
  else
    .ok (.notConnected, st, [])

/-- The function `publish_mz`: same gate/validate/store/publish shape with `check_mz`,
mirror key `mz`, command code `mz`. -/
def publish_mz (cfg : Config) (st : LogicState) (v : PyVal) :
    Except PyErr (PubOutcome × LogicState × List (String × PyVal)) :=
  if st.connected then do
    let _ ← check_mz v
    pure (.published, ⟨st.connected, dictSet st.settings ("mz") v⟩,
          [(cmnd_topic cfg ("mz"), .dict [("value", v)])])
  else
    .ok (.notConnected, st, [])

/-- The function `publish_dc_offst`: mirror key `dc_offst`, command code `dc_offst`. -/
def publish_dc_offst (cfg : Config) (st : LogicState) (v : PyVal) :
    Except PyErr (PubOutcome × LogicState × List (String × PyVal)) :=
  if st.connected then do
    let _ ← check_dc_offst v
    pure (.published, ⟨st.connected, dictSet st.settings ("dc_offst") v⟩,
          [(cmnd_topic cfg ("dc_offst"), .dict [("value", v)])])
  else
    .ok (.notConnected, st, [])

/-- The function `publish_dc_on`: mirror key `dc_on`, command code `is_dc_on`. -/
def publish_dc_on (cfg : Config) (st : LogicState) (v : PyVal) :
    Except PyErr (PubOutcome × LogicState × List (String × PyVal)) :=
  if st.connected then do
    let _ ← check_dc_on v
    pure (.published, ⟨st.connected, dictSet st.settings ("dc_on") v⟩,
          [(cmnd_topic cfg ("is_dc_on"), .dict [("value", v)])])
  else
    .ok (.notConnected, st, [])

/-- The function `publish_rod_polarity_positive`: mirror key `rod_polarity_positive`,
command code `is_rod_polarity_positive`. -/
def publish_rod_polarity_positive (cfg : Config) (st : LogicState) (v : PyVal) :
    Except PyErr (PubOutcome × LogicState × List (String × PyVal)) :=
  if st.connected then do
    let _ ← check_rod_polarity_positive v
    pure (.published, ⟨st.connected, dictSet st.settings ("rod_polarity_positive") v⟩,
          [(cmnd_topic cfg ("is_rod_polarity_positive"), .dict [("value", v)])])
  else
    .ok (.notConnected, st, [])

/-- The function `publish_calib_points_mz`: the publish path validates with
`verify_calib_points` directly (raising `TypeError` on bad shape);
mirror key `calib_points_mz`, command code `calib_pnts_rf`. -/
def publish_calib_points_mz (cfg : Config) (st : LogicState) (v : PyVal) :
    Except PyErr (PubOutcome × LogicState × List (String × PyVal)) :=
  if st.connected then do
    let _ ← verify_calib_points v
    pure (.published, ⟨st.connected, dictSet st.settings ("calib_points_mz") v⟩,
          [(cmnd_topic cfg ("calib_pnts_rf"), .dict [("value", v)])])
  else
    .ok (.notConnected, st, [])

/-- The function `publish_calib_points_resolution`: mirror key
`calib_points_resolution`, command code `calib_pnts_dc`. -/
def publish_calib_points_resolution (cfg : Config) (st : LogicState) (v : PyVal) :
    Except PyErr (PubOutcome × LogicState × List (String × PyVal)) :=
  if st.connected then do
    let _ ← verify_calib_points v
    pure (.published, ⟨st.connected, dictSet st.settings ("calib_points_resolution") v⟩,
          [(cmnd_topic cfg ("calib_pnts_dc"), .dict [("value", v)])])
  else
    .ok (.notConnected, st, [])

/-- The function `request_device_state` (gated by `@client_connected`): publish an
empty record to the `state` command topic.  Request functions do not
touch the mirror; only their published messages are observable. -/
def request_device_state (cfg : Config) (st : LogicState) : List (String × PyVal) :=
  if st.connected then [(cmnd_topic cfg ("state"), .dict [])] else []

/-- The function `request_dc_offst`: empty record to the `dc_offst` command topic. -/
def request_dc_offst (cfg : Config) (st : LogicState) : List (String × PyVal) :=
  if st.connected then [(cmnd_topic cfg ("dc_offst"), .dict [])] else []

/-- The function `request_calib_points_mz`: empty record to `calib_pnts_rf`. -/
def request_calib_points_mz (cfg : Config) (st : LogicState) : List (String × PyVal) :=
  if st.connected then [(cmnd_topic cfg ("calib_pnts_rf"), .dict [])] else []

/-- The function `request_calib_points_resolution`: empty record to `calib_pnts_dc`. -/
def request_calib_points_resolution (cfg : Config) (st : LogicState) :
    List (String × PyVal) :=
  if st.connected then [(cmnd_topic cfg ("calib_pnts_dc"), .dict [])] else []

/-- The function `handle_device_connected`: signal the connected status, then issue the
resync sequence `request_device_state`, `request_dc_offst`,
`request_calib_points_mz`, `request_calib_points_resolution` in that
order. -/
def handle_device_connected (cfg : Config) (st : LogicState) : Except PyErr Step :=
  .ok ⟨st, [Signal.deviceStatusChanged ("connected")],
       request_device_state cfg st ++ request_dc_offst cfg st ++
       request_calib_points_mz cfg st ++ request_calib_points_resolution cfg st⟩

/-! ## The inbound router (`on_message`) -/

/-- The function `on_message`: decode the payload (a decode failure is replaced by the
empty record), then classify the topic by the source's `if/elif` chain:
connected marker, error marker, then suffix matches in the source's
order (`state`, `range`, `mz`, `dc_offst`, `dc_on`,
`rod_polarity_positive`, `calib_points_mz`, `calib_points_resolution`,
`max_mz`), else ignore.  `decoded = Option.none` models a payload that
`json.loads` rejects. -/
def on_message (cfg : Config) (st : LogicState) (topic : String)
    (decoded : Option PyVal) : Except PyErr Step :=
  let payload := decoded.getD (.dict [])
  if strContains topic ("/connected/") then handle_device_connected cfg st
  else if strContains topic ("/error/") then handle_device_error st
  else if strEndsWith topic ("state") then handle_device_state st payload
  else if strEndsWith topic ("range") then handle_range st payload
  else if strEndsWith topic ("mz") then handle_mz st payload
  else if strEndsWith topic ("dc_offst") then handle_dc_offst st payload
  else if strEndsWith topic ("dc_on") then handle_dc_on st payload
  else if strEndsWith topic ("rod_polarity_positive") then handle_rod_polarity_positive st payload
  else if strEndsWith topic ("calib_points_mz") then handle_calib_points_mz st payload
  else if strEndsWith topic ("calib_points_resolution") then handle_calib_points_resolution st payload
  else if strEndsWith topic ("max_mz") then handle_max_mz st payload
  else .ok ⟨st, [], []⟩

/-- Deliver a sequence of inbound messages through `on_message`,
threading the state and accumulating signals and publishes; stops at the
first uncaught exception, as the transport thread would. -/
def processMessages (cfg : Config) (st : LogicState) :
    List (String × Option PyVal) → Except PyErr Step
  | [] => .ok ⟨st, [], []⟩
  | (t, d) :: rest => do
      let s ← on_message cfg st t d
      let s' ← processMessages cfg s.state rest
      pure ⟨s'.state, s.signals ++ s'.signals, s.published ++ s'.published⟩

/-! ## The seven settings fields -/

/-- The seven operator-controllable settings fields. -/
inductive SettingsField : Type where
  | mass_range : SettingsField
  | mz : SettingsField
  | dc_offst : SettingsField
  | dc_on : SettingsField
  | rod_polarity_positive : SettingsField
  | calib_points_mz : SettingsField
  | calib_points_resolution : SettingsField
deriving DecidableEq, Repr

/-- The key of a settings field in the `self.settings` dictionary. -/
def fieldKey : SettingsField → String
  | .mass_range => "mass_range"
  | .mz => "mz"
  | .dc_offst => "dc_offst"
  | .dc_on => "dc_on"
  | .rod_polarity_positive => "rod_polarity_positive"
  | .calib_points_mz => "calib_points_mz"
  | .calib_points_resolution => "calib_points_resolution"

/-- The command-topic code of a settings field (last topic segment of the
outbound `cmnd` address). -/
def fieldCode : SettingsField → String
  | .mass_range => "range"
  | .mz => "mz"
  | .dc_offst => "dc_offst"
  | .dc_on => "is_dc_on"
  | .rod_polarity_positive => "is_rod_polarity_positive"
  | .calib_points_mz => "calib_pnts_rf"
  | .calib_points_resolution => "calib_pnts_dc"

/-- The validator the `publish_*` method of a field calls (the calibration
publishes call `verify_calib_points` directly). -/
def fieldCheck : SettingsField → PyVal → Except PyErr Unit
  | .mass_range => check_mass_range
  | .mz => check_mz
  | .dc_offst => check_dc_offst
  | .dc_on => check_dc_on
  | .rod_polarity_positive => check_rod_polarity_positive
  | .calib_points_mz => verify_calib_points
  | .calib_points_resolution => verify_calib_points

/-- The validator `load_settings` runs for a field (here the calibration
fields go through the `ValueError`-wrapping `check_calib_points_*`). -/
def loadCheck : SettingsField → PyVal → Except PyErr Unit
  | .mass_range => check_mass_range
  | .mz => check_mz
  | .dc_offst => check_dc_offst
  | .dc_on => check_dc_on
  | .rod_polarity_positive => check_rod_polarity_positive
  | .calib_points_mz => check_calib_points_mz
  | .calib_points_resolution => check_calib_points_resolution

/-- Dispatch to the `publish_*` method of a settings field. -/
def publishField (cfg : Config) (st : LogicState) :
    SettingsField → PyVal → Except PyErr (PubOutcome × LogicState × List (String × PyVal))
  | .mass_range => publish_mass_range cfg st
  | .mz => publish_mz cfg st
  | .dc_offst => publish_dc_offst cfg st
  | .dc_on => publish_dc_on cfg st
  | .rod_polarity_positive => publish_rod_polarity_positive cfg st
  | .calib_points_mz => publish_calib_points_mz cfg st
  | .calib_points_resolution => publish_calib_points_resolution cfg st

/-! ## Persistence (`save_settings` / `load_settings`) -/

/-- A JSON document, as written by `json.dump` and read by `json.load`. -/
inductive JsonVal : Type where
  | null : JsonVal
  | bool : Bool → JsonVal
  | int : Int → JsonVal
  | float : ℚ → JsonVal
  | str : String → JsonVal
  | arr : List JsonVal → JsonVal
  | obj : List (String × JsonVal) → JsonVal

mutual

/-- The function `json.dump` on the values this program handles (`None`, booleans,
numbers, strings, lists, string-keyed dicts are all JSON-serializable,
so the encoding is total here). -/
def dumps : PyVal → JsonVal
  | .none => .null
  | .bool b => .bool b
  | .int n => .int n
  | .float q => .float q
  | .str s => .str s
  | .list xs => .arr (dumpsList xs)
  | .dict kvs => .obj (dumpsObj kvs)

def dumpsList : List PyVal → List JsonVal
  | [] => []
  | x :: xs => dumps x :: dumpsList xs

def dumpsObj : List (String × PyVal) → List (String × JsonVal)
  | [] => []
  | (k, v) :: kvs => (k, dumps v) :: dumpsObj kvs

end

mutual

/-- The function `json.load`: the Python value a JSON document decodes to. -/
def loads : JsonVal → PyVal
  | .null => .none
  | .bool b => .bool b
  | .int n => .int n
  | .float q => .float q
  | .str s => .str s
  | .arr xs => .list (loadsList xs)
  | .obj kvs => .dict (loadsObj kvs)

def loadsList : List JsonVal → List PyVal
  | [] => []
  | x :: xs => loads x :: loadsList xs

def loadsObj : List (String × JsonVal) → List (String × PyVal)
  | [] => []
  | (k, v) :: kvs => (k, loads v) :: loadsObj kvs

end

/-- The function `save_settings`: `json.dump(self.settings, f)` — the file holds the
serialized settings dictionary. -/
def save_settings (st : LogicState) : JsonVal :=
  dumps (.dict st.settings)

/-- The function `load_settings`: `json.load` the file, run the seven validators in
source order (each raising to the caller on failure), then replace
`self.settings` wholesale and re-publish every field in source order.
Subscripting a non-dict document raises `TypeError`, a missing key
`KeyError`, exactly as the source's `settings["..."]` accesses do. -/
def load_settings (cfg : Config) (st : LogicState) (file : JsonVal) :
    Except PyErr (LogicState × List (String × PyVal)) := do
  let settings := loads file
  let v1 ← pyGet settings ("mass_range")
  let _ ← check_mass_range v1
  let v2 ← pyGet settings ("mz")
  let _ ← check_mz v2
  let v3 ← pyGet settings ("dc_offst")
  let _ ← check_dc_offst v3
  let v4 ← pyGet settings ("dc_on")
  let _ ← check_dc_on v4
  let v5 ← pyGet settings ("rod_polarity_positive")
  let _ ← check_rod_polarity_positive v5
  let v6 ← pyGet settings ("calib_points_mz")
  let _ ← check_calib_points_mz v6
  let v7 ← pyGet settings ("calib_points_resolution")
  let _ ← check_calib_points_resolution v7
  let kvs := match settings with
    | .dict kvs => kvs
    | _ => []
  let st1 : LogicState := ⟨st.connected, kvs⟩
  let (_, st2, m1) ← publish_mass_range cfg st1 v1
  let (_, st3, m2) ← publish_mz cfg st2 v2
  let (_, st4, m3) ← publish_dc_offst cfg st3 v3
  let (_, st5, m4) ← publish_dc_on cfg st4 v4
  let (_, st6, m5) ← publish_rod_polarity_positive cfg st5 v5
  let (_, st7, m6) ← publish_calib_points_mz cfg st6 v6
  let (_, st8, m7) ← publish_calib_points_resolution cfg st7 v7
  pure (st8, m1 ++ m2 ++ m3 ++ m4 ++ m5 ++ m6 ++ m7)

/-- The seven settings fields, in the order `load_settings` validates
them. -/
def fieldList : List SettingsField :=
  [.mass_range, .mz, .dc_offst, .dc_on, .rod_polarity_positive,
   .calib_points_mz, .calib_points_resolution]

/-- Whether an `Except`-modelled call returned normally. -/
def exceptOkB : Except PyErr Unit → Bool
  | .ok _ => true
  | .error _ => false

/-- Decidable validity of a settings dictionary: every one of the seven
fields is present and passes the validator `load_settings` runs for it. -/
def snapshotValidB (kvs : List (String × PyVal)) : Bool :=
  fieldList.all fun f =>
    ((dictGet? kvs (fieldKey f)).map fun v => exceptOkB (loadCheck f v)).getD false

/-! ## Concrete instances used by witnesses -/

/-- A concrete addressing configuration. -/
def cfg0 : Config := ⟨"qsource3", "quad"⟩

/-- Engine state with an established transport session and the default
settings. -/
def st_conn : LogicState := ⟨true, initial_settings⟩

/-- Engine state without an established transport session. -/
def st_disc : LogicState := ⟨false, initial_settings⟩

/-! ## Supporting lemmas -/

@[simp] theorem except_bind_ok {α β : Type} (a : α) (f : α → Except PyErr β) :
    (Except.ok a >>= f) = f a := rfl

@[simp] theorem except_bind_error {α β : Type} (e : PyErr) (f : α → Except PyErr β) :
    ((Except.error e : Except PyErr α) >>= f) = .error e := rfl

@[simp] theorem except_pure {α : Type} (a : α) :
    (pure a : Except PyErr α) = .ok a := rfl

@[simp] theorem except_throw {α : Type} (e : PyErr) :
    (throw e : Except PyErr α) = .error e := rfl

/-- The function `fieldKey` is injective: distinct settings fields live under distinct
mirror keys. -/
theorem fieldKey_injective (a b : SettingsField) (h : fieldKey a = fieldKey b) :
    a = b := by
  cases a <;> cases b <;> first | rfl | simp [fieldKey] at h

theorem dictGet?_dictSet_self : ∀ (kvs : List (String × PyVal)) (k : String) (v : PyVal),
    dictGet? (dictSet kvs k v) k = some v
  | [], k, v => by simp [dictSet, dictGet?]
  | (k', v') :: rest, k, v => by
      by_cases h : k' = k
      · simp [dictSet, dictGet?, h]
      · simp [dictSet, dictGet?, h, dictGet?_dictSet_self rest k v]

theorem dictGet?_dictSet_ne : ∀ (kvs : List (String × PyVal)) (k k' : String) (v : PyVal),
    k' ≠ k → dictGet? (dictSet kvs k v) k' = dictGet? kvs k'
  | [], k, k', v, h => by
      have hk : ¬(k = k') := fun hh => h hh.symm
      simp [dictSet, dictGet?, hk]
  | (k₀, v₀) :: rest, k, k', v, h => by
      by_cases h₀ : k₀ = k
      · subst h₀
        have hk : ¬(k₀ = k') := fun hh => h hh.symm
        simp [dictSet, dictGet?, hk]
      · simp only [dictSet, if_neg h₀, dictGet?]
        by_cases h₁ : k₀ = k'
        · simp [h₁]
        · simp [h₁, dictGet?_dictSet_ne rest k k' v h]

theorem dictSet_get_self : ∀ (kvs : List (String × PyVal)) (k : String) (v : PyVal),
    dictGet? kvs k = some v → dictSet kvs k v = kvs
  | [], k, v, h => by simp [dictGet?] at h
  | (k', v') :: rest, k, v, h => by
      by_cases hk : k' = k
      · simp only [dictGet?, if_pos hk] at h
        cases h
        simp [dictSet, if_pos hk]
      · simp only [dictGet?, if_neg hk] at h
        simp [dictSet, if_neg hk, dictSet_get_self rest k v h]

mutual

theorem loads_dumps : ∀ v : PyVal, loads (dumps v) = v
  | .none => rfl
  | .bool _ => rfl
  | .int _ => rfl
  | .float _ => rfl
  | .str _ => rfl
  | .list xs => by simp [dumps, loads, loadsList_dumpsList xs]
  | .dict kvs => by simp [dumps, loads, loadsObj_dumpsObj kvs]

theorem loadsList_dumpsList : ∀ xs : List PyVal, loadsList (dumpsList xs) = xs
  | [] => rfl
  | x :: xs => by simp [dumpsList, loadsList, loads_dumps x, loadsList_dumpsList xs]

theorem loadsObj_dumpsObj : ∀ kvs : List (String × PyVal), loadsObj (dumpsObj kvs) = kvs
  | [] => rfl
  | (k, v) :: kvs => by simp [dumpsObj, loadsObj, loads_dumps v, loadsObj_dumpsObj kvs]

end

/-- The function `verify_calib_points` either passes or raises `TypeError`. -/
theorem verify_calib_points_cases (v : PyVal) :
    verify_calib_points v = .ok () ∨ verify_calib_points v = .error .typeError := by
  cases v with
  | list pairs =>
      by_cases h : pairs.all calibPairOk = true
      · exact Or.inl (by simp [verify_calib_points, h])
      · exact Or.inr (by simp [verify_calib_points, h])
  | none => exact Or.inr rfl
  | bool b => exact Or.inr rfl
  | int n => exact Or.inr rfl
  | float q => exact Or.inr rfl
  | str s => exact Or.inr rfl
  | dict kvs => exact Or.inr rfl

/-- If the `ValueError`-wrapped calibration validator passes, so does the
underlying `verify_calib_points`. -/
theorem verify_of_check_calib_mz (v : PyVal) (h : check_calib_points_mz v = .ok ()) :
    verify_calib_points v = .ok () := by
  rcases verify_calib_points_cases v with hv | hv
  · exact hv
  · simp [check_calib_points_mz, hv] at h

/-- Same fact for the resolution wrapper. -/
theorem verify_of_check_calib_res (v : PyVal)
    (h : check_calib_points_resolution v = .ok ()) :
    verify_calib_points v = .ok () := by
  rcases verify_calib_points_cases v with hv | hv
  · exact hv
  · simp [check_calib_points_resolution, hv] at h

theorem snapshotValid_field (kvs : List (String × PyVal))
    (h : snapshotValidB kvs = true) (f : SettingsField) :
    ∃ v, dictGet? kvs (fieldKey f) = some v ∧ loadCheck f v = .ok () := by
  have hf : f ∈ fieldList := by cases f <;> simp [fieldList]
  have hx := List.all_eq_true.mp h f hf
  cases hg : dictGet? kvs (fieldKey f) with
  | none => rw [hg] at hx; simp at hx
  | some v =>
      rw [hg] at hx
      simp only [Option.map_some', Option.getD_some] at hx
      refine ⟨v, rfl, ?_⟩
      cases hc : loadCheck f v with
      | ok u => cases u; rfl
      | error e => rw [hc] at hx; simp [exceptOkB] at hx

/-- If the decoded snapshot is a dictionary whose seven settings fields
all validate, `load_settings` succeeds and installs exactly that
dictionary as the new mirror (the re-publishes rewrite each field with
the value it already has). -/
theorem loadSettingsOkOfValid (cfg : Config) (st : LogicState) (file : JsonVal)
    (kvs : List (String × PyVal)) (hf : loads file = .dict kvs)
    (hvalid : snapshotValidB kvs = true) :
    ∃ msgs, load_settings cfg st file = .ok (⟨st.connected, kvs⟩, msgs) := by
  obtain ⟨v1, hg1, hc1⟩ := snapshotValid_field kvs hvalid .mass_range
  obtain ⟨v2, hg2, hc2⟩ := snapshotValid_field kvs hvalid .mz
  obtain ⟨v3, hg3, hc3⟩ := snapshotValid_field kvs hvalid .dc_offst
  obtain ⟨v4, hg4, hc4⟩ := snapshotValid_field kvs hvalid .dc_on
  obtain ⟨v5, hg5, hc5⟩ := snapshotValid_field kvs hvalid .rod_polarity_positive
  obtain ⟨v6, hg6, hc6⟩ := snapshotValid_field kvs hvalid .calib_points_mz
  obtain ⟨v7, hg7, hc7⟩ := snapshotValid_field kvs hvalid .calib_points_resolution
  simp only [fieldKey] at hg1 hg2 hg3 hg4 hg5 hg6 hg7
  have hc1' : check_mass_range v1 = Except.ok () := hc1
  have hc2' : check_mz v2 = Except.ok () := hc2
  have hc3' : check_dc_offst v3 = Except.ok () := hc3
  have hc4' : check_dc_on v4 = Except.ok () := hc4
  have hc5' : check_rod_polarity_positive v5 = Except.ok () := hc5
  have hc6' : check_calib_points_mz v6 = Except.ok () := hc6
  have hc7' : check_calib_points_resolution v7 = Except.ok () := hc7
  have hv6 : verify_calib_points v6 = Except.ok () := verify_of_check_calib_mz v6 hc6'
  have hv7 : verify_calib_points v7 = Except.ok () := verify_of_check_calib_res v7 hc7'
  have d1 := dictSet_get_self kvs _ v1 hg1
  have d2 := dictSet_get_self kvs _ v2 hg2
  have d3 := dictSet_get_self kvs _ v3 hg3
  have d4 := dictSet_get_self kvs _ v4 hg4
  have d5 := dictSet_get_self kvs _ v5 hg5
  have d6 := dictSet_get_self kvs _ v6 hg6
  have d7 := dictSet_get_self kvs _ v7 hg7
  cases hcon : st.connected with
  | false =>
      refine ⟨[], ?_⟩
      simp [load_settings, hf, pyGet, hg1, hg2, hg3, hg4, hg5, hg6, hg7,
            hc1', hc2', hc3', hc4', hc5', hc6', hc7', hcon,
            publish_mass_range, publish_mz, publish_dc_offst, publish_dc_on,
            publish_rod_polarity_positive, publish_calib_points_mz,
            publish_calib_points_resolution]
  | true =>
      refine ⟨[(cmnd_topic cfg ("range"), .dict [("value", v1)]),
              (cmnd_topic cfg ("mz"), .dict [("value", v2)]),
              (cmnd_topic cfg ("dc_offst"), .dict [("value", v3)]),
              (cmnd_topic cfg ("is_dc_on"), .dict [("value", v4)]),
              (cmnd_topic cfg ("is_rod_polarity_positive"), .dict [("value", v5)]),
              (cmnd_topic cfg ("calib_pnts_rf"), .dict [("value", v6)]),
              (cmnd_topic cfg ("calib_pnts_dc"), .dict [("value", v7)])], ?_⟩
      simp [load_settings, hf, pyGet, hg1, hg2, hg3, hg4, hg5, hg6, hg7,
            hc1', hc2', hc3', hc4', hc5', hc6', hc7', hv6, hv7, hcon,
            d1, d2, d3, d4, d5, d6, d7,
            publish_mass_range, publish_mz, publish_dc_offst, publish_dc_on,
            publish_rod_polarity_positive, publish_calib_points_mz,
            publish_calib_points_resolution]

/-- If `load_settings` returned normally, every one of the seven settings
fields was present in the decoded snapshot and passed its validator. -/
theorem loadSettingsChecks (cfg : Config) (st : LogicState) (file : JsonVal)
    (res : LogicState × List (String × PyVal))
    (hok : load_settings cfg st file = .ok res) :
    ∀ f : SettingsField, ∃ v,
      pyGet (loads file) (fieldKey f) = .ok v ∧ loadCheck f v = .ok () := by
  rw [load_settings] at hok
  cases hl : loads file with
  | dict kvs =>
      rw [hl] at hok
      cases hg1 : dictGet? kvs ("mass_range") with
      | none => simp [pyGet, hg1] at hok
      | some v1 =>
      simp only [pyGet, hg1, except_bind_ok] at hok
      cases hc1 : check_mass_range v1 with
      | error e => simp [hc1] at hok
      | ok u1 =>
      cases u1
      simp only [hc1, except_bind_ok] at hok
      cases hg2 : dictGet? kvs ("mz") with
      | none => simp [hg2] at hok
      | some v2 =>
      simp only [hg2, except_bind_ok] at hok
      cases hc2 : check_mz v2 with
      | error e => simp [hc2] at hok
      | ok u2 =>
      cases u2
      simp only [hc2, except_bind_ok] at hok
      cases hg3 : dictGet? kvs ("dc_offst") with
      | none => simp [hg3] at hok
      | some v3 =>
      simp only [hg3, except_bind_ok] at hok
      cases hc3 : check_dc_offst v3 with
      | error e => simp [hc3] at hok
      | ok u3 =>
      cases u3
      simp only [hc3, except_bind_ok] at hok
      cases hg4 : dictGet? kvs ("dc_on") with
      | none => simp [hg4] at hok
      | some v4 =>
      simp only [hg4, except_bind_ok] at hok
      cases hc4 : check_dc_on v4 with
      | error e => simp [hc4] at hok
      | ok u4 =>
      cases u4
      simp only [hc4, except_bind_ok] at hok
      cases hg5 : dictGet? kvs ("rod_polarity_positive") with
      | none => simp [hg5] at hok
      | some v5 =>
      simp only [hg5, except_bind_ok] at hok
      cases hc5 : check_rod_polarity_positive v5 with
      | error e => simp [hc5] at hok
      | ok u5 =>
      cases u5
      simp only [hc5, except_bind_ok] at hok
      cases hg6 : dictGet? kvs ("calib_points_mz") with
      | none => simp [hg6] at hok
      | some v6 =>
      simp only [hg6, except_bind_ok] at hok
      cases hc6 : check_calib_points_mz v6 with
      | error e => simp [hc6] at hok
      | ok u6 =>
      cases u6
      simp only [hc6, except_bind_ok] at hok
      cases hg7 : dictGet? kvs ("calib_points_resolution") with
      | none => simp [hg7] at hok
      | some v7 =>
      simp only [hg7, except_bind_ok] at hok
      cases hc7 : check_calib_points_resolution v7 with
      | error e => simp [hc7] at hok
      | ok u7 =>
      intro f
      cases f with
      | mass_range => exact ⟨v1, by simp [pyGet, fieldKey, hl, hg1], hc1⟩
      | mz => exact ⟨v2, by simp [pyGet, fieldKey, hl, hg2], hc2⟩
      | dc_offst => exact ⟨v3, by simp [pyGet, fieldKey, hl, hg3], hc3⟩
      | dc_on => exact ⟨v4, by simp [pyGet, fieldKey, hl, hg4], hc4⟩
      | rod_polarity_positive => exact ⟨v5, by simp [pyGet, fieldKey, hl, hg5], hc5⟩
      | calib_points_mz => exact ⟨v6, by simp [pyGet, fieldKey, hl, hg6], hc6⟩
      | calib_points_resolution =>
          exact ⟨v7, by simp [pyGet, fieldKey, hl, hg7], by cases u7; exact hc7⟩
  | none => rw [hl] at hok; simp [pyGet] at hok
  | bool b => rw [hl] at hok; simp [pyGet] at hok
  | int n => rw [hl] at hok; simp [pyGet] at hok
  | float q => rw [hl] at hok; simp [pyGet] at hok
  | str s => rw [hl] at hok; simp [pyGet] at hok
  | list xs => rw [hl] at hok; simp [pyGet] at hok

/-! ## Claims -/

/-- C1: the claim says no exception raised while validating an inbound
field value — including a calibration-points report of the wrong shape —
propagates out of the `on_message` dispatch.  The code contradicts this:
`handle_calib_points_resolution` validates with `verify_calib_points`,
which raises `TypeError`, but its `except` clause only catches
`ValueError` (the `ValueError`-wrapping `check_calib_points_*`
functions exist in `utils.py` precisely for this and are imported but
not used by the handler), so the `TypeError` escapes `on_message`. -/
theorem C1_calib_typeerror_escapes_router :
    on_message cfg0 st_conn ("qsource3/response/quad/calib_points_resolution")
      (some (.dict [("value",
        .list [.list [.int 1, .int 2], .list [.str ("a"), .int 3]])]))
      = .error .typeError := rfl

/-- C2: the claim says a payload record lacking the field's `value` key
leaves the field un-updated and the dispatch completes normally.  The
code treats an undecodable payload as the empty record (so
classification still happens), but every per-field handler then
subscripts `payload["value"]` inside a `try/except ValueError`, so the
resulting `KeyError` escapes the dispatch instead of completing it. -/
theorem C2_missing_value_key_raises_keyerror :
    on_message cfg0 st_conn ("qsource3/response/quad/mz") Option.none
      = .error .keyError := rfl

/-- C3: the claim says telemetry values (e.g. a report on a topic ending
in `max_mz`) are forwarded as notifications only and never written into
the settings mirror.  The code contradicts this: the dispatch tests
`topic.endswith("mz")` before `topic.endswith("max_mz")`, so a `max_mz`
report is routed to `handle_mz` (the dedicated `max_mz` branch is
unreachable) and its value is stored into the mirror's `mz` field. -/
theorem C3_max_mz_telemetry_written_to_mirror :
    on_message cfg0 st_conn ("qsource3/response/quad/max_mz")
      (some (.dict [("value", .int 100)]))
      = .ok ⟨⟨true, dictSet initial_settings ("mz") (.int 100)⟩,
             [Signal.mzChanged (.int 100)], []⟩
    ∧ dictGet? (dictSet initial_settings ("mz") (.int 100)) ("mz") = some (.int 100)
    ∧ dictGet? initial_settings ("mz") = some (.int 0) :=
  ⟨rfl, rfl, rfl⟩

/-- C10: booleans pass the numeric validators (Python `bool` subclasses
`int`): `True` is accepted by `check_mz` and by `check_mass_range`
(`True == 1`), and a connected publish of `mz` with `True` stores the
boolean into the mirror's `mz` field and publishes it as the value. -/
theorem C10_bool_passes_numeric_validators :
    check_mz (.bool true) = .ok ()
    ∧ check_mass_range (.bool true) = .ok ()
    ∧ publish_mz cfg0 st_conn (.bool true)
        = .ok (.published, ⟨true, dictSet initial_settings ("mz") (.bool true)⟩,
               [(cmnd_topic cfg0 ("mz"), .dict [("value", .bool true)])])
    ∧ dictGet? (dictSet initial_settings ("mz") (.bool true)) ("mz")
        = some (.bool true) :=
  ⟨rfl, rfl, rfl, rfl⟩

/-- C4 counterexample: the claim says every settings field appearing in a
state report is validated and, on success, written into the mirror.  For
the concrete state report `{"mz": 7}` (a value `check_mz` accepts), the
router only emits the notification and leaves the mirror's `mz` field at
its old value, so the claim is false at this input. -/
theorem C4_counterexample_state_report_mz :
    check_mz (.int 7) = .ok ()
    ∧ handle_device_state st_conn (.dict [("mz", .int 7)])
        = .ok ⟨st_conn, [Signal.mzChanged (.int 7)], []⟩
    ∧ ¬ handle_device_state st_conn (.dict [("mz", .int 7)])
        = .ok ⟨⟨true, dictSet initial_settings ("mz") (.int 7)⟩,
               [Signal.mzChanged (.int 7)], []⟩ := by
  refine ⟨rfl, rfl, ?_⟩
  intro h
  have hbad : (some (PyVal.int 0) : Option PyVal) = some (PyVal.int 7) :=
    congrArg (fun r =>
      match r with
      | Except.ok s => dictGet? s.state.settings ("mz")
      | Except.error _ => Option.none) h
  injection hbad with hbad1
  injection hbad1 with hbad2
  exact absurd hbad2 (by decide)

/-- C4 amended: in a bulk state report only `range` is validated and
stored (with a `ValueError` failure dropped); the other settings keys
found there (`mz`, `dc_offst`, `is_dc_on`, `is_rod_polarity_positive`)
are forwarded as notifications only, with no validation and no mirror
mutation.  Per-field reports for `range`, `mz`, `dc_offst`, `dc_on`,
`rod_polarity_positive` and `calib_points_resolution` are validated and,
only on success, stored and notified; a `ValueError`-classified failure
is dropped with no mutation, while a calibration shape failure raises
`TypeError` instead of being dropped.  A per-field `calib_points_mz`
report is captured by the earlier `mz` suffix match of the dispatch, so
it reaches `handle_mz` (and hence never updates `calib_points_mz`). -/
theorem C4_amended_inbound_settings_updates :
    (∀ (st : LogicState) (v : PyVal), check_mz v = .ok () →
      handle_mz st (.dict [("value", v)])
        = .ok ⟨⟨st.connected, dictSet st.settings ("mz") v⟩, [Signal.mzChanged v], []⟩)
    ∧ (∀ (st : LogicState) (v : PyVal), check_mz v = .error .valueError →
      handle_mz st (.dict [("value", v)]) = .ok ⟨st, [], []⟩)
    ∧ (∀ (st : LogicState) (v : PyVal), check_mass_range v = .ok () →
      handle_range st (.dict [("value", v)])
        = .ok ⟨⟨st.connected, dictSet st.settings ("mass_range") v⟩,
               [Signal.massRangeChanged v], []⟩)
    ∧ (∀ (st : LogicState) (v : PyVal), check_mass_range v = .error .valueError →
      handle_range st (.dict [("value", v)]) = .ok ⟨st, [], []⟩)
    ∧ (∀ (st : LogicState) (v : PyVal), check_dc_offst v = .ok () →
      handle_dc_offst st (.dict [("value", v)])
        = .ok ⟨⟨st.connected, dictSet st.settings ("dc_offst") v⟩,
               [Signal.dcOffstChanged v], []⟩)
    ∧ (∀ (st : LogicState) (v : PyVal), check_dc_offst v = .error .valueError →
      handle_dc_offst st (.dict [("value", v)]) = .ok ⟨st, [], []⟩)
    ∧ (∀ (st : LogicState) (v : PyVal), check_dc_on v = .ok () →
      handle_dc_on st (.dict [("value", v)])
        = .ok ⟨⟨st.connected, dictSet st.settings ("dc_on") v⟩,
               [Signal.dcOnChanged v], []⟩)
    ∧ (∀ (st : LogicState) (v : PyVal), check_dc_on v = .error .valueError →
      handle_dc_on st (.dict [("value", v)]) = .ok ⟨st, [], []⟩)
    ∧ (∀ (st : LogicState) (v : PyVal), check_rod_polarity_positive v = .ok () →
      handle_rod_polarity_positive st (.dict [("value", v)])
        = .ok ⟨⟨st.connected, dictSet st.settings ("rod_polarity_positive") v⟩,
               [Signal.rodPolarityPositiveChanged v], []⟩)
    ∧ (∀ (st : LogicState) (v : PyVal), check_rod_polarity_positive v = .error .valueError →
      handle_rod_polarity_positive st (.dict [("value", v)]) = .ok ⟨st, [], []⟩)
    ∧ (∀ (st : LogicState) (v : PyVal), verify_calib_points v = .ok () →
      handle_calib_points_resolution st (.dict [("value", v)])
        = .ok ⟨⟨st.connected, dictSet st.settings ("calib_points_resolution") v⟩,
               [Signal.calibPointsResolutionChanged v], []⟩)
    ∧ (∀ (st : LogicState) (v : PyVal), verify_calib_points v = .error .typeError →
      handle_calib_points_resolution st (.dict [("value", v)]) = .error .typeError)
    ∧ (∀ (st : LogicState) (v : PyVal),
      handle_device_state st (.dict [("mz", v)]) = .ok ⟨st, [Signal.mzChanged v], []⟩)
    ∧ (∀ (st : LogicState) (v : PyVal),
      handle_device_state st (.dict [("dc_offst", v)])
        = .ok ⟨st, [Signal.dcOffstChanged v], []⟩)
    ∧ (∀ (st : LogicState) (v : PyVal),
      handle_device_state st (.dict [("is_dc_on", v)])
        = .ok ⟨st, [Signal.dcOnChanged v], []⟩)
    ∧ (∀ (st : LogicState) (v : PyVal),
      handle_device_state st (.dict [("is_rod_polarity_positive", v)])
        = .ok ⟨st, [Signal.rodPolarityPositiveChanged v], []⟩)
    ∧ (∀ (st : LogicState) (v : PyVal), check_mass_range v = .ok () →
      handle_device_state st (.dict [("range", v)])
        = .ok ⟨⟨st.connected, dictSet st.settings ("mass_range") v⟩,
               [Signal.massRangeChanged v], []⟩)
    ∧ (∀ (st : LogicState) (v : PyVal), check_mass_range v = .error .valueError →
      handle_device_state st (.dict [("range", v)]) = .ok ⟨st, [], []⟩)
    ∧ (∀ (st : LogicState) (d : Option PyVal) (cfg : Config),
      on_message cfg st ("qsource3/response/quad/calib_points_mz") d
        = handle_mz st (d.getD (.dict []))) := by
  refine ⟨?_, ?_, ?_, ?_, ?_, ?_, ?_, ?_, ?_, ?_, ?_, ?_,
          fun st v => rfl, fun st v => rfl, fun st v => rfl, fun st v => rfl,
          ?_, ?_, fun st d cfg => rfl⟩
  · intro st v h; simp [handle_mz, pyGet, dictGet?, h]
  · intro st v h; simp [handle_mz, pyGet, dictGet?, h]
  · intro st v h; simp [handle_range, pyGet, dictGet?, h]
  · intro st v h; simp [handle_range, pyGet, dictGet?, h]
  · intro st v h; simp [handle_dc_offst, pyGet, dictGet?, h]
  · intro st v h; simp [handle_dc_offst, pyGet, dictGet?, h]
  · intro st v h; simp [handle_dc_on, pyGet, dictGet?, h]
  · intro st v h; simp [handle_dc_on, pyGet, dictGet?, h]
  · intro st v h; simp [handle_rod_polarity_positive, pyGet, dictGet?, h]
  · intro st v h; simp [handle_rod_polarity_positive, pyGet, dictGet?, h]
  · intro st v h; simp [handle_calib_points_resolution, pyGet, dictGet?, h]
  · intro st v h; simp [handle_calib_points_resolution, pyGet, dictGet?, h]
  · intro st v h
    simp [handle_device_state, pyContains, pyGet, dictGet?, emitIfPresent, h]
  · intro st v h
    simp [handle_device_state, pyContains, pyGet, dictGet?, emitIfPresent, h]

/-- C4 amended claim, exercised at a concrete input: a per-field `mz`
report with the valid value 5 is validated, stored and notified. -/
theorem C4_amended_witness :
    check_mz (.int 5) = .ok ()
    ∧ handle_mz st_conn (.dict [("value", .int 5)])
        = .ok ⟨⟨true, dictSet initial_settings ("mz") (.int 5)⟩,
               [Signal.mzChanged (.int 5)], []⟩ :=
  ⟨rfl, C4_amended_inbound_settings_updates.1 st_conn (.int 5) rfl⟩

/-- C5: invoking any outbound publish while the transport session is not
established returns the connectivity rejection synchronously (the
`@client_connected` gate logs the warning and returns before the body),
mutates no mirror field, and publishes nothing. -/
theorem C5_not_connected_rejects_without_effects (cfg : Config) (st : LogicState)
    (f : SettingsField) (v : PyVal) (h : st.connected = false) :
    publishField cfg st f v = .ok (.notConnected, st, []) := by
  cases f <;>
    simp [publishField, publish_mass_range, publish_mz, publish_dc_offst,
          publish_dc_on, publish_rod_polarity_positive, publish_calib_points_mz,
          publish_calib_points_resolution, h]

/-- C5 exercised at a concrete input: a disconnected `mz` publish. -/
theorem C5_witness :
    st_disc.connected = false
    ∧ publishField cfg0 st_disc .mz (.int 5) = .ok (.notConnected, st_disc, []) :=
  ⟨rfl, C5_not_connected_rejects_without_effects cfg0 st_disc .mz (.int 5) rfl⟩

/-- C7: any message on a topic carrying the connected marker triggers
exactly the fixed resync sequence — the full-state request followed by
the per-field pulls for `dc_offst`, `calib_points_mz`
(`calib_pnts_rf`) and `calib_points_resolution` (`calib_pnts_dc`), each
published exactly once and in that order — and two consecutive
device-connected deliveries re-trigger the full sequence twice, with no
deduplication. -/
theorem C7_device_connected_triggers_fixed_resync (cfg : Config) (st : LogicState)
    (t : String) (d1 d2 : Option PyVal) (hcon : st.connected = true)
    (ht : strContains t ("/connected/") = true) :
    on_message cfg st t d1
      = .ok ⟨st, [Signal.deviceStatusChanged ("connected")],
             [(cmnd_topic cfg ("state"), .dict []),
              (cmnd_topic cfg ("dc_offst"), .dict []),
              (cmnd_topic cfg ("calib_pnts_rf"), .dict []),
              (cmnd_topic cfg ("calib_pnts_dc"), .dict [])]⟩
    ∧ processMessages cfg st [(t, d1), (t, d2)]
      = .ok ⟨st, [Signal.deviceStatusChanged ("connected"),
                  Signal.deviceStatusChanged ("connected")],
             [(cmnd_topic cfg ("state"), .dict []),
              (cmnd_topic cfg ("dc_offst"), .dict []),
              (cmnd_topic cfg ("calib_pnts_rf"), .dict []),
              (cmnd_topic cfg ("calib_pnts_dc"), .dict []),
              (cmnd_topic cfg ("state"), .dict []),
              (cmnd_topic cfg ("dc_offst"), .dict []),
              (cmnd_topic cfg ("calib_pnts_rf"), .dict []),
              (cmnd_topic cfg ("calib_pnts_dc"), .dict [])]⟩ := by
  have h1 : ∀ d : Option PyVal, on_message cfg st t d
      = .ok ⟨st, [Signal.deviceStatusChanged ("connected")],
             [(cmnd_topic cfg ("state"), .dict []),
              (cmnd_topic cfg ("dc_offst"), .dict []),
              (cmnd_topic cfg ("calib_pnts_rf"), .dict []),
              (cmnd_topic cfg ("calib_pnts_dc"), .dict [])]⟩ := by
    intro d
    simp [on_message, ht, handle_device_connected, request_device_state,
          request_dc_offst, request_calib_points_mz,
          request_calib_points_resolution, hcon]
  exact ⟨h1 d1, by simp [processMessages, h1 d1, h1 d2]⟩

/-- C7 exercised at a concrete input: two consecutive connected-marker
messages for the concrete configuration. -/
theorem C7_witness :
    st_conn.connected = true
    ∧ strContains ("qsource3/connected/quad") ("/connected/") = true
    ∧ on_message cfg0 st_conn ("qsource3/connected/quad") Option.none
      = .ok ⟨st_conn, [Signal.deviceStatusChanged ("connected")],
             [(cmnd_topic cfg0 ("state"), .dict []),
              (cmnd_topic cfg0 ("dc_offst"), .dict []),
              (cmnd_topic cfg0 ("calib_pnts_rf"), .dict []),
              (cmnd_topic cfg0 ("calib_pnts_dc"), .dict [])]⟩ :=
  ⟨rfl, rfl,
   (C7_device_connected_triggers_fixed_resync cfg0 st_conn
      ("qsource3/connected/quad") Option.none Option.none rfl rfl).1⟩

/-- C8: a connected publish of a valid value first validates it, then
stores exactly that field in the mirror (optimistic update) leaving the
other six settings fields unchanged, and publishes exactly one message
`{"value": v}` on the field's command topic; a validation failure
raises to the caller with the mirror untouched and nothing published
(the `Except.error` result carries no state transition or message). -/
theorem C8_publish_connected_validate_store_publish (cfg : Config)
    (st : LogicState) (f : SettingsField) (v : PyVal) (hcon : st.connected = true) :
    (fieldCheck f v = .ok () →
      publishField cfg st f v
        = .ok (.published, ⟨true, dictSet st.settings (fieldKey f) v⟩,
               [(cmnd_topic cfg (fieldCode f), .dict [("value", v)])])
      ∧ dictGet? (dictSet st.settings (fieldKey f) v) (fieldKey f) = some v
      ∧ ∀ g : SettingsField, g ≠ f →
          dictGet? (dictSet st.settings (fieldKey f) v) (fieldKey g)
            = dictGet? st.settings (fieldKey g))
    ∧ (∀ e, fieldCheck f v = .error e → publishField cfg st f v = .error e) := by
  constructor
  · intro h
    refine ⟨?_, dictGet?_dictSet_self _ _ _, ?_⟩
    · cases f <;> simp only [fieldCheck] at h <;>
        simp [publishField, publish_mass_range, publish_mz, publish_dc_offst,
              publish_dc_on, publish_rod_polarity_positive,
              publish_calib_points_mz, publish_calib_points_resolution,
              fieldKey, fieldCode, hcon, h]
    · intro g hg
      exact dictGet?_dictSet_ne st.settings (fieldKey f) (fieldKey g) v
        (fun heq => hg (fieldKey_injective g f heq))
  · intro e h
    cases f <;> simp only [fieldCheck] at h <;>
      simp [publishField, publish_mass_range, publish_mz, publish_dc_offst,
            publish_dc_on, publish_rod_polarity_positive,
            publish_calib_points_mz, publish_calib_points_resolution, hcon, h]

/-- C8 exercised at a concrete input: a connected publish of
`mass_range = 1`. -/
theorem C8_witness :
    st_conn.connected = true
    ∧ fieldCheck .mass_range (.int 1) = .ok ()
    ∧ publishField cfg0 st_conn .mass_range (.int 1)
        = .ok (.published, ⟨true, dictSet initial_settings ("mass_range") (.int 1)⟩,
               [(cmnd_topic cfg0 ("range"), .dict [("value", .int 1)])]) :=
  ⟨rfl, rfl,
   ((C8_publish_connected_validate_store_publish cfg0 st_conn .mass_range
      (.int 1) rfl).1 rfl).1⟩

/-- C6: loading a persisted snapshot is all-or-nothing.  If the decoded
snapshot dictionary passes all seven validators, `load_settings`
replaces the mirror wholesale with that dictionary; if any one of the
seven fields is present but fails its validator, `load_settings` raises
to its caller (the `Except.error` result carries no state transition, so
the mirror is unchanged — in the source every validator runs before the
assignment `self.settings = settings`). -/
theorem C6_snapshot_load_all_or_nothing (cfg : Config) (st : LogicState)
    (file : JsonVal) :
    (∀ kvs, loads file = .dict kvs → snapshotValidB kvs = true →
        ∃ msgs, load_settings cfg st file = .ok (⟨st.connected, kvs⟩, msgs))
    ∧ (∀ (f : SettingsField) (v : PyVal) (e : PyErr),
        pyGet (loads file) (fieldKey f) = .ok v → loadCheck f v = .error e →
        ∃ e', load_settings cfg st file = .error e') := by
  constructor
  · intro kvs hf hv
    exact loadSettingsOkOfValid cfg st file kvs hf hv
  · intro f v e hget hchk
    cases hres : load_settings cfg st file with
    | error e' => exact ⟨e', rfl⟩
    | ok res =>
        obtain ⟨v', hget', hchk'⟩ := loadSettingsChecks cfg st file res hres f
        rw [hget] at hget'
        injection hget' with hv'
        rw [← hv', hchk] at hchk'
        simp at hchk'

/-- C6 exercised at a concrete input: loading the serialized default
snapshot (all fields valid) from a disconnected state succeeds and
installs it. -/
theorem C6_witness :
    loads (dumps (.dict initial_settings)) = .dict initial_settings
    ∧ snapshotValidB initial_settings = true
    ∧ ∃ msgs, load_settings cfg0 st_disc (dumps (.dict initial_settings))
        = .ok (⟨false, initial_settings⟩, msgs) :=
  ⟨rfl, rfl,
   (C6_snapshot_load_all_or_nothing cfg0 st_disc
      (dumps (.dict initial_settings))).1 initial_settings rfl rfl⟩

/-- C9: for any mirror whose seven settings fields are valid, saving the
settings and loading the resulting file back reproduces the settings
dictionary exactly (all seven fields equal, with the dictionary — and
hence every calibration-point sequence — preserved verbatim by the JSON
round trip). -/
theorem C9_save_load_roundtrip (cfg : Config) (st st2 : LogicState)
    (hvalid : snapshotValidB st.settings = true) :
    ∃ st' msgs, load_settings cfg st2 (save_settings st) = .ok (st', msgs)
      ∧ st'.settings = st.settings := by
  have hf : loads (save_settings st) = .dict st.settings := by
    simp [save_settings, loads_dumps]
  obtain ⟨msgs, hm⟩ := loadSettingsOkOfValid cfg st2 (save_settings st)
    st.settings hf hvalid
  exact ⟨⟨st2.connected, st.settings⟩, msgs, hm, rfl⟩

/-- C9 exercised at a concrete input: round-tripping the valid default
settings through save and load. -/
theorem C9_witness :
    snapshotValidB st_conn.settings = true
    ∧ ∃ st' msgs, load_settings cfg0 st_disc (save_settings st_conn)
        = .ok (st', msgs) ∧ st'.settings = st_conn.settings :=
  ⟨rfl, C9_save_load_roundtrip cfg0 st_conn st_disc rfl⟩
